import Mathlib

/-!
Shallow embedding of `password strength checker/main.py` (class
`PasswordStrengthChecker` and the free function `simple_strength_check`).

Modelling conventions:
* A Python string is a `List Char`; the characters keep their Unicode code
  points (`Char.toNat`).
* The Unicode-aware predicates `str.islower`, `str.isupper`, `str.isdigit`,
  `str.lower`, `str.strip` and the regex character classes are modelled
  exactly on the code points below `0x100` (ASCII plus Latin-1); characters
  at or above `0x100` are conservatively classified as belonging to none of
  the classes.  Every concrete input used in a theorem below stays inside
  that faithfully modelled range.
* The float expression `length * charset_size ** 0.5` (the entropy) is
  modelled as the exact real `length * √charset_size`.  Only two facts about
  the entropy are consumed by the program: the integer
  `min(int(entropy / 20), 5)` (the score bonus) and whether
  `2 ** entropy` overflows the IEEE-double range in `estimate_crack_time`.
  Both are integer facts about `entropySq := length² * charset_size`:
  `int(entropy / 20) = ⌊√entropySq⌋ / 20` and the overflow happens exactly
  when `entropy ≥ 1024`, i.e. `entropySq ≥ 1024²`.  Floating-point rounding
  is not modelled; no concrete input used below is anywhere near a rounding
  boundary.
* Mutable state of the Python object (`self.score`, `self.feedback`) is
  passed explicitly as a `CheckerState`; `evaluate` receives the state the
  object holds when the method is called.
* Python exceptions are modelled with `Except PyExn`.
-/

/-- Exceptions that the modelled code can raise: `OverflowError` from
`2 ** entropy` in `estimate_crack_time`, `IndexError` from list indexing,
and `PermissionError` from `open` when the file exists but is unreadable. -/
inductive PyExn where
  | overflowError
  | indexError
  | permissionError
deriving DecidableEq, Repr

/-- Outcome of the `open('common_passwords.txt', 'r')` call in
`load_common_passwords`: the file opens and iterating it yields `lines`
(each line as read, trailing newline and all), or the file does not exist
(`FileNotFoundError`), or it exists but is unreadable (`PermissionError`). -/
inductive OpenOutcome where
  | opened (lines : List String)
  | fileNotFound
  | permissionDenied
deriving DecidableEq, Repr

/-- Python `str.islower` on a single character, modelled below `0x100`:
ASCII `a`–`z` plus the Latin-1 lowercase letters `U+00DF`–`U+00FF`
excluding the division sign `U+00F7`. -/
def pyIslower (c : Char) : Bool :=
  (97 ≤ c.toNat && c.toNat ≤ 122) ||
  (223 ≤ c.toNat && c.toNat ≤ 255 && c.toNat ≠ 247)

/-- Python `str.isupper` on a single character, modelled below `0x100`:
ASCII `A`–`Z` plus the Latin-1 uppercase letters `U+00C0`–`U+00DE`
excluding the multiplication sign `U+00D7`. -/
def pyIsupper (c : Char) : Bool :=
  (65 ≤ c.toNat && c.toNat ≤ 90) ||
  (192 ≤ c.toNat && c.toNat ≤ 222 && c.toNat ≠ 215)

/-- Python `str.isdigit` on a single character, modelled below `0x100`:
ASCII `0`–`9` plus the Latin-1 superscripts `²` (U+00B2), `³` (U+00B3)
and `¹` (U+00B9), for which `str.isdigit` is also true. -/
def pyIsdigit (c : Char) : Bool :=
  (48 ≤ c.toNat && c.toNat ≤ 57) ||
  c.toNat == 178 || c.toNat == 179 || c.toNat == 185

/-- Membership in Python's `string.punctuation`, which is exactly the 32
ASCII characters with code points 33–47, 58–64, 91–96 and 123–126. -/
def isPunctCode (n : ℕ) : Bool :=
  (33 ≤ n && n ≤ 47) || (58 ≤ n && n ≤ 64) ||
  (91 ≤ n && n ≤ 96) || (123 ≤ n && n ≤ 126)

/-- Test `c in string.punctuation` for a single character. -/
def pyIsPunct (c : Char) : Bool := isPunctCode c.toNat

/-- Python `str.lower` on a single character, modelled below `0x100`:
maps `A`–`Z` and the Latin-1 uppercase letters `U+00C0`–`U+00DE`
(excluding `×`, U+00D7) to the code point 32 higher; every other
character is unchanged. -/
def pyLowerChar (c : Char) : Char :=
  if 65 ≤ c.toNat && c.toNat ≤ 90 then Char.ofNat (c.toNat + 32)
  else if 192 ≤ c.toNat && c.toNat ≤ 222 && c.toNat ≠ 215 then
    Char.ofNat (c.toNat + 32)
  else c

/-- Python `str.lower` on a whole string. -/
def pyLower (p : List Char) : List Char := p.map pyLowerChar

/-- Characters counted as whitespace by Python `str.strip`, modelled below
`0x100`: tab through carriage return (9–13), the separators 28–31, the
space, `U+0085` and the no-break space `U+00A0`. -/
def isPySpace (c : Char) : Bool :=
  [9, 10, 11, 12, 13, 28, 29, 30, 31, 32, 133, 160].contains c.toNat

/-- Python `str.strip()`: remove leading and trailing whitespace. -/
def pyStrip (s : String) : String :=
  String.mk (((s.data.dropWhile isPySpace).reverse.dropWhile isPySpace).reverse)

/-- Python substring containment `pat in s` on character lists. -/
def containsSub (pat : List Char) : List Char → Bool
  | [] => pat.isEmpty
  | c :: rest => pat.isPrefixOf (c :: rest) || containsSub pat rest

/-- Python list indexing `l[i]`: a non-negative index counts from the
front, a negative index counts from the back; `none` models `IndexError`. -/
def pyIndex {α : Type} (l : List α) (i : ℤ) : Option α :=
  let j : ℤ := if i < 0 then i + l.length else i
  if j < 0 then none else l.get? j.toNat

/-- Fallback set returned by `load_common_passwords` when the word-list
file does not exist (the Python set is modelled as a list; only membership
is ever used). -/
def fallback_passwords : List String :=
  ["password", "123456", "qwerty", "abc123", "admin", "welcome"]

/-- Embedding of `load_common_passwords`: on a successful open every line
is stripped (`line.strip()`) and collected; a `FileNotFoundError` is caught
and replaced by the fallback set; any other failure of `open` (such as
`PermissionError`) is not caught and propagates to the caller. -/
def load_common_passwords : OpenOutcome → Except PyExn (List String)
  | OpenOutcome.opened lines => Except.ok (lines.map pyStrip)
  | OpenOutcome.fileNotFound => Except.ok fallback_passwords
  | OpenOutcome.permissionDenied => Except.error PyExn.permissionError

/-- Embedding of `check_length`: the returned integer is the score
contribution and the list is the feedback appended to `self.feedback`. -/
def check_length (p : List Char) : ℤ × List String :=
  if p.length < 8 then (0, ["Password is too short (min 8 characters)."])
  else if p.length < 12 then (2, ["Length is okay but could be longer."])
  else if p.length < 16 then (3, ["Good password length."])
  else (4, ["Excellent password length."])

/-- Embedding of `check_character_types`: `types` is the number of the four
character classes present; feedback is appended when fewer than 3 classes
are present. -/
def check_character_types (p : List Char) : ℤ × List String :=
  let types : ℕ := (p.any pyIslower).toNat + (p.any pyIsupper).toNat +
    (p.any pyIsdigit).toNat + (p.any pyIsPunct).toNat
  if types < 3 then
    ((types : ℤ), ["Use a mix of upper, lower, digits, and special chars."])
  else ((types : ℤ), [])

/-- Fixed list `bad_patterns` from `check_common_patterns`. -/
def bad_patterns : List String := ["123", "abc", "qwerty"]

/-- Embedding of `check_common_patterns`: the lower-cased password is
searched for any of the bad patterns as a substring. -/
def check_common_patterns (p : List Char) : ℤ × List String :=
  if bad_patterns.any (fun pat => containsSub pat.data (pyLower p)) then
    (-2, ["Avoid common patterns like '123', 'abc', 'qwerty'."])
  else (0, [])

/-- Embedding of `check_common_password`: membership of the lower-cased
password in the loaded common-password set. -/
def check_common_password (common : List String) (p : List Char) :
    ℤ × List String :=
  if common.contains (String.mk (pyLower p)) then
    (-2, ["This password is too common!"])
  else (0, [])

/-- Charset size from `calculate_entropy`: 26 for lowercase presence, 26
for uppercase, 10 for digits, 32 for punctuation. -/
def charset_size (p : List Char) : ℕ :=
  (if p.any pyIslower then 26 else 0) + (if p.any pyIsupper then 26 else 0) +
  (if p.any pyIsdigit then 10 else 0) + (if p.any pyIsPunct then 32 else 0)

/-- Square of the entropy `length * charset_size ** 0.5` computed by
`calculate_entropy`.  The entropy itself is the real `√(calculate_entropy_sq p)`;
its square is a natural number and is what the embedding carries around
(it determines every integer decision the program takes: the entropy is
zero iff this is zero, the score bonus is `floorSqrt · / 20` capped at 5,
and `2 ** entropy` overflows iff this is at least `1024²`). -/
def calculate_entropy_sq (p : List Char) : ℕ := p.length ^ 2 * charset_size p

/-- Integer square root by bisection, written with explicit structural fuel
so that it reduces inside the kernel; `sqrtAux n fuel lo hi` maintains
`lo² ≤ n < hi²`. -/
def sqrtAux (n : ℕ) : ℕ → ℕ → ℕ → ℕ
  | 0, lo, _ => lo
  | fuel + 1, lo, hi =>
    if (lo + hi) / 2 = lo then lo
    else if ((lo + hi) / 2) * ((lo + hi) / 2) ≤ n then
      sqrtAux n fuel ((lo + hi) / 2) hi
    else sqrtAux n fuel lo ((lo + hi) / 2)

/-- Floor of the real square root of a natural number (proved equal to
`Nat.sqrt` in `floorSqrt_eq` below). -/
def floorSqrt (n : ℕ) : ℕ := sqrtAux n (n + 2) 0 (n + 1)

/-- Entropy bonus `min(int(entropy / 20), 5)` added to the score in
`evaluate`.  Since the entropy is `√entropySq ≥ 0`, Python's truncating
`int` is the floor, and `⌊√s / 20⌋ = ⌊⌊√s⌋ / 20⌋ = floorSqrt s / 20`. -/
def entropy_bonus (p : List Char) : ℤ :=
  ((min (floorSqrt (calculate_entropy_sq p) / 20) 5 : ℕ) : ℤ)

/-- Embedding of `estimate_crack_time`, restricted to its only observable
effects on the claims under verification: the call `2 ** entropy` raises
`OverflowError` exactly when the result exceeds the largest finite IEEE
double, i.e. when `entropy ≥ 1024`, i.e. when `entropySq ≥ 1024²`;
otherwise the function returns one of the textual duration buckets (the
bucket text itself is a transcendental function of the entropy and is not
needed by any claim, so it is not carried in the result). -/
def estimate_crack_time (entropySq : ℕ) : Except PyExn Unit :=
  if 1024 * 1024 ≤ entropySq then Except.error PyExn.overflowError
  else Except.ok ()

/-- Rating table; the local list `rating` in `evaluate`. -/
def rating_table : List String :=
  ["Very Weak", "Weak", "Moderate", "Strong", "Very Strong"]

/-- Mutable state of a `PasswordStrengthChecker` object: `self.score` and
`self.feedback` (set to `0` and `[]` by `__init__`). -/
structure CheckerState where
  score : ℤ
  feedback : List String
deriving DecidableEq, Repr

/-- State installed by `__init__`. -/
def initState : CheckerState := ⟨0, []⟩

/-- Result dictionary returned by `evaluate`.  The `entropy` entry of the
Python dict is `√entropy_sq` rounded to one decimal; the `crack_time`
bucket text and the wall-clock `time_taken` entry are not modelled (see
the module comment). -/
structure EvalResult where
  rating : String
  score : ℤ
  entropy_sq : ℕ
  feedback : List String
deriving DecidableEq, Repr

/-- Total score increment produced by one `evaluate` call: the sequence of
`self.score += ...` statements in source order (length, character types,
common patterns, common password, entropy bonus). -/
def score_delta (common : List String) (p : List Char) : ℤ :=
  (check_length p).1 + (check_character_types p).1 +
  (check_common_patterns p).1 + (check_common_password common p).1 +
  entropy_bonus p

/-- Feedback appended to `self.feedback` by one `evaluate` call, in the
order the checks run. -/
def feedback_delta (common : List String) (p : List Char) : List String :=
  (check_length p).2 ++ (check_character_types p).2 ++
  (check_common_patterns p).2 ++ (check_common_password common p).2

/-- Embedding of `evaluate`, called on an object whose common-password set
is `common` and whose mutable state is `st`.  The score and feedback are
accumulated onto the state, the rating is
`rating[min(self.score // 3, 4)]` with Python list-index semantics
(`pyIndex`; an invalid index is an `IndexError`), and
`estimate_crack_time` runs after the rating is selected. -/
def evaluate (common : List String) (p : List Char) (st : CheckerState) :
    Except PyExn EvalResult :=
  match pyIndex rating_table
      (min (Int.fdiv (st.score + score_delta common p) 3) 4) with
  | none => Except.error PyExn.indexError
  | some final_rating =>
    match estimate_crack_time (calculate_entropy_sq p) with
    | Except.error e => Except.error e
    | Except.ok _ =>
      Except.ok ⟨final_rating, st.score + score_delta common p,
        calculate_entropy_sq p, st.feedback ++ feedback_delta common p⟩

/-- Fixed special-character class of the regex
`[!@#$%^&*(),.?\":{}|<>]` in `simple_strength_check`, as code points. -/
def special_codes : List ℕ :=
  [33, 64, 35, 36, 37, 94, 38, 42, 40, 41, 44, 46, 63, 34, 58, 123, 125, 124, 60, 62]

/-- Test of the regex special-character class on one character. -/
def isSpecialChar (c : Char) : Bool := special_codes.contains c.toNat

/-- Regex `[a-z]` on one character. -/
def reLower (c : Char) : Bool := 97 ≤ c.toNat && c.toNat ≤ 122

/-- Regex `[A-Z]` on one character. -/
def reUpper (c : Char) : Bool := 65 ≤ c.toNat && c.toNat ≤ 90

/-- Regex `\d` on one character.  `\d` matches the Unicode `Nd` category,
which below `0x100` is exactly ASCII `0`–`9`. -/
def reDigit (c : Char) : Bool := 48 ≤ c.toNat && c.toNat ≤ 57

/-- Embedding of the free function `simple_strength_check`. -/
def simple_strength_check (p : List Char) : String :=
  if p.length < 8 then "Weak"
  else if !(p.any reLower) then "Weak"
  else if !(p.any reUpper) then "Weak"
  else if !(p.any reDigit) then "Weak"
  else if !(p.any isSpecialChar) then "Weak"
  else if p.length < 12 then "Moderate"
  else "Strong"

/-! ### Helper lemmas -/

lemma sqrtAux_eq (n : ℕ) (fuel lo hi : ℕ) (h1 : lo * lo ≤ n) (h2 : n < hi * hi)
    (h3 : lo < hi) (h4 : hi ≤ lo + fuel + 1) : sqrtAux n fuel lo hi = Nat.sqrt n := by
  induction fuel generalizing lo hi with
  | zero =>
    have hhi : hi = lo + 1 := by omega
    subst hhi
    exact Nat.eq_sqrt.mpr ⟨h1, h2⟩
  | succ fuel ih =>
    unfold sqrtAux
    by_cases hm : (lo + hi) / 2 = lo
    · rw [if_pos hm]
      have hhi : hi = lo + 1 := by omega
      subst hhi
      exact Nat.eq_sqrt.mpr ⟨h1, h2⟩
    · rw [if_neg hm]
      by_cases hle : ((lo + hi) / 2) * ((lo + hi) / 2) ≤ n
      · rw [if_pos hle]
        exact ih _ _ hle h2 (by omega) (by omega)
      · rw [if_neg hle]
        exact ih _ _ h1 (by omega) (by omega) (by omega)

/-- The fueled bisection computes exactly `Nat.sqrt`, i.e. the floor of the
real square root. -/
lemma floorSqrt_eq (n : ℕ) : floorSqrt n = Nat.sqrt n := by
  unfold floorSqrt
  exact sqrtAux_eq n (n + 2) 0 (n + 1) (by omega) (by nlinarith) (by omega) (by omega)

/-- Inversion of a successful `evaluate` call: the returned score, feedback
and entropy, and the fact that the rating came from the indexing of
`rating_table` at `min(score // 3, 4)`. -/
lemma evaluate_ok {common : List String} {p : List Char} {st : CheckerState}
    {r : EvalResult} (h : evaluate common p st = Except.ok r) :
    r.score = st.score + score_delta common p ∧
    r.feedback = st.feedback ++ feedback_delta common p ∧
    r.entropy_sq = calculate_entropy_sq p ∧
    pyIndex rating_table
      (min (Int.fdiv (st.score + score_delta common p) 3) 4) = some r.rating := by
  unfold evaluate at h
  split at h
  · exact absurd h (by simp)
  next heq =>
    split at h
    · exact absurd h (by simp)
    · rw [Except.ok.injEq] at h
      subst h
      exact ⟨rfl, rfl, rfl, heq⟩

lemma check_length_bounds (p : List Char) :
    0 ≤ (check_length p).1 ∧ (check_length p).1 ≤ 4 := by
  unfold check_length
  split_ifs <;> norm_num

lemma check_character_types_fst (p : List Char) :
    (check_character_types p).1 = (((p.any pyIslower).toNat +
      (p.any pyIsupper).toNat + (p.any pyIsdigit).toNat +
      (p.any pyIsPunct).toNat : ℕ) : ℤ) := by
  simp only [check_character_types]
  split_ifs <;> rfl

lemma check_character_types_bounds (p : List Char) :
    0 ≤ (check_character_types p).1 ∧ (check_character_types p).1 ≤ 4 := by
  have hb : ∀ b : Bool, b.toNat ≤ 1 := by decide
  have h4 : (p.any pyIslower).toNat + (p.any pyIsupper).toNat +
      (p.any pyIsdigit).toNat + (p.any pyIsPunct).toNat ≤ 4 := by
    have := hb (p.any pyIslower)
    have := hb (p.any pyIsupper)
    have := hb (p.any pyIsdigit)
    have := hb (p.any pyIsPunct)
    omega
  rw [check_character_types_fst]
  constructor
  · positivity
  · exact_mod_cast h4

lemma check_common_patterns_cases (p : List Char) :
    (check_common_patterns p).1 = 0 ∨ (check_common_patterns p).1 = -2 := by
  unfold check_common_patterns
  split_ifs <;> simp

lemma check_common_password_cases (common : List String) (p : List Char) :
    (check_common_password common p).1 = 0 ∨
    (check_common_password common p).1 = -2 := by
  unfold check_common_password
  split_ifs <;> simp

lemma entropy_bonus_bounds (p : List Char) :
    0 ≤ entropy_bonus p ∧ entropy_bonus p ≤ 5 := by
  unfold entropy_bonus
  constructor
  · positivity
  · exact_mod_cast Nat.cast_le.mpr (min_le_right _ 5)

lemma score_delta_bounds (common : List String) (p : List Char) :
    -4 ≤ score_delta common p ∧ score_delta common p ≤ 17 := by
  unfold score_delta
  have h1 := check_length_bounds p
  have h2 := check_character_types_bounds p
  have h3 := check_common_patterns_cases p
  have h4 := check_common_password_cases common p
  have h5 := entropy_bonus_bounds p
  omega

/-- Every successful lookup in the rating table produces one of its five
labels. -/
lemma pyIndex_rating_mem {i : ℤ} {r : String}
    (h : pyIndex rating_table i = some r) :
    r = "Very Weak" ∨ r = "Weak" ∨ r = "Moderate" ∨ r = "Strong" ∨
    r = "Very Strong" := by
  simp only [pyIndex] at h
  have hmem : r ∈ rating_table := by
    split_ifs at h <;> exact List.get?_mem h
  simpa [rating_table] using hmem

/-- Indices between `-5` and `4` are valid for the five-element rating
table. -/
lemma pyIndex_rating_isSome {i : ℤ} (h1 : -5 ≤ i) (h2 : i ≤ 4) :
    (pyIndex rating_table i).isSome = true := by
  interval_cases i <;> decide

/-- Only `2 ** entropy` can fail inside `estimate_crack_time`, and it fails
with `OverflowError`. -/
lemma estimate_crack_time_error {s : ℕ} {e : PyExn}
    (h : estimate_crack_time s = Except.error e) : e = PyExn.overflowError := by
  unfold estimate_crack_time at h
  split_ifs at h
  exact (Except.error.injEq _ _).mp h.symm

/-! ### Claims -/

/-- C1: the claim says the rating index `min(score // 3, 4)` is clamped
below at 0, so every negative score yields "Very Weak".  The code has no
lower clamp: for the password "qwerty" (with the fallback common-password
set) the score is `-2`, the index is `min(-2 // 3, 4) = -1`, and Python's
negative indexing wraps to the END of the table, so the evaluation returns
the rating "Very Strong" — not "Very Weak". -/
theorem c1_negative_score_wraps_to_very_strong :
    evaluate fallback_passwords "qwerty".data initState =
      Except.ok ⟨"Very Strong", -2, 936,
        ["Password is too short (min 8 characters).",
         "Use a mix of upper, lower, digits, and special chars.",
         "Avoid common patterns like '123', 'abc', 'qwerty'.",
         "This password is too common!"]⟩ ∧
    ("Very Strong" : String) ≠ "Very Weak" := ⟨rfl, by decide⟩

/-- C2 counterexample: evaluating "password" with the fallback set yields
the final rating "Weak" (score 3), not "Very Weak" as the claim states. -/
theorem c2_cex_rating_is_weak :
    (evaluate fallback_passwords "password".data initState).toOption.map
      EvalResult.rating = some "Weak" ∧ ("Weak" : String) ≠ "Very Weak" :=
  ⟨rfl, by decide⟩

/-- C2 (amended): evaluating "password" with the fallback set triggers the
common-password penalizer (`-2`), does not trigger the pattern penalizer
(`0`), and produces the final rating "Weak" (score 3). -/
theorem c2_amended_password_scenario :
    (check_common_password fallback_passwords "password".data).1 = -2 ∧
    (check_common_patterns "password".data).1 = 0 ∧
    evaluate fallback_passwords "password".data initState =
      Except.ok ⟨"Weak", 3, 1664,
        ["Length is okay but could be longer.",
         "Use a mix of upper, lower, digits, and special chars.",
         "This password is too common!"]⟩ :=
  ⟨rfl, rfl, rfl⟩

set_option maxRecDepth 8000 in
/-- C3: the claim says evaluate never raises, for extremely long strings
included.  It does raise: for 201 lowercase characters the entropy is
`201·√26 ≈ 1024.9 ≥ 1024`, so `2 ** entropy` in `estimate_crack_time`
exceeds the largest finite IEEE double and raises `OverflowError`. -/
theorem c3_long_input_overflow :
    evaluate fallback_passwords (List.replicate 201 'a') initState =
      Except.error PyExn.overflowError := rfl

/-- C4 counterexample: classification is not ASCII-only.  The non-ASCII
character `ä` (U+00E4) satisfies Python's Unicode-aware `str.islower`, so
the one-character password "ä" has char-class sub-score 1 (not 0) and
charset size 26, hence entropy `√26 ≠ 0` (not 0). -/
theorem c4_cex_nonascii_lowercase_counts :
    ¬ ('ä'.toNat < 128) ∧ (check_character_types ['ä']).1 ≠ 0 ∧
    calculate_entropy_sq ['ä'] ≠ 0 := by decide

/-- C4 (amended): only the punctuation class is ASCII-only; the lowercase,
uppercase and digit classes are Unicode-aware.  A password none of whose
characters falls in any of the four recognized classes has char-class
sub-score 0, charset size 0 and entropy 0. -/
theorem c4_amended_unclassified_chars (p : List Char)
    (h : ∀ c ∈ p, pyIslower c = false ∧ pyIsupper c = false ∧
      pyIsdigit c = false ∧ pyIsPunct c = false) :
    (check_character_types p).1 = 0 ∧ charset_size p = 0 ∧
    calculate_entropy_sq p = 0 := by
  have hl : p.any pyIslower = false := by
    simp only [List.any_eq_false]
    intro c hc
    simp [(h c hc).1]
  have hu : p.any pyIsupper = false := by
    simp only [List.any_eq_false]
    intro c hc
    simp [(h c hc).2.1]
  have hd : p.any pyIsdigit = false := by
    simp only [List.any_eq_false]
    intro c hc
    simp [(h c hc).2.2.1]
  have hp : p.any pyIsPunct = false := by
    simp only [List.any_eq_false]
    intro c hc
    simp [(h c hc).2.2.2]
  have hcs : charset_size p = 0 := by
    unfold charset_size
    rw [hl, hu, hd, hp]
    simp
  refine ⟨?_, hcs, ?_⟩
  · rw [check_character_types_fst, hl, hu, hd, hp]
    rfl
  · unfold calculate_entropy_sq
    rw [hcs, Nat.mul_zero]

/-- C4 witness: the euro sign (U+20AC) belongs to none of the four
classes, so the password "€" has sub-score 0 and entropy 0. -/
theorem c4_witness :
    (check_character_types "€".data).1 = 0 ∧ charset_size "€".data = 0 ∧
    calculate_entropy_sq "€".data = 0 :=
  c4_amended_unclassified_chars "€".data (by decide)

/-- C5: for every password and common-password set, a fresh evaluation's
score is the sum of the length sub-score (in `[0,4]`), the char-class
sub-score (in `[0,4]`), the pattern penalty (in `{0,-2}`), the
common-password penalty (in `{0,-2}`) and the entropy bonus (in `[0,5]`);
hence the score lies in `[-4, 17]`. -/
theorem c5_score_decomposition (common : List String) (p : List Char)
    (r : EvalResult) (h : evaluate common p initState = Except.ok r) :
    r.score = (check_length p).1 + (check_character_types p).1 +
      (check_common_patterns p).1 + (check_common_password common p).1 +
      entropy_bonus p ∧
    0 ≤ (check_length p).1 ∧ (check_length p).1 ≤ 4 ∧
    0 ≤ (check_character_types p).1 ∧ (check_character_types p).1 ≤ 4 ∧
    ((check_common_patterns p).1 = 0 ∨ (check_common_patterns p).1 = -2) ∧
    ((check_common_password common p).1 = 0 ∨
      (check_common_password common p).1 = -2) ∧
    0 ≤ entropy_bonus p ∧ entropy_bonus p ≤ 5 ∧
    -4 ≤ r.score ∧ r.score ≤ 17 := by
  obtain ⟨hs, -, -, -⟩ := evaluate_ok h
  have e1 : r.score = 0 + score_delta common p := hs
  have h1 := check_length_bounds p
  have h2 := check_character_types_bounds p
  have h3 := check_common_patterns_cases p
  have h4 := check_common_password_cases common p
  have h5 := entropy_bonus_bounds p
  have hb := score_delta_bounds common p
  have hd : score_delta common p = (check_length p).1 +
      (check_character_types p).1 + (check_common_patterns p).1 +
      (check_common_password common p).1 + entropy_bonus p := rfl
  refine ⟨by omega, h1.1, h1.2, h2.1, h2.2, h3, h4, h5.1, h5.2, by omega,
    by omega⟩

/-- C5 witness: instantiation at the password "password" with the fallback
set (score `3 = 2 + 1 + 0 + (-2) + 2`). -/
theorem c5_witness :
    (3 : ℤ) = (check_length "password".data).1 +
      (check_character_types "password".data).1 +
      (check_common_patterns "password".data).1 +
      (check_common_password fallback_passwords "password".data).1 +
      entropy_bonus "password".data ∧
    0 ≤ (check_length "password".data).1 ∧
      (check_length "password".data).1 ≤ 4 ∧
    0 ≤ (check_character_types "password".data).1 ∧
      (check_character_types "password".data).1 ≤ 4 ∧
    ((check_common_patterns "password".data).1 = 0 ∨
      (check_common_patterns "password".data).1 = -2) ∧
    ((check_common_password fallback_passwords "password".data).1 = 0 ∨
      (check_common_password fallback_passwords "password".data).1 = -2) ∧
    0 ≤ entropy_bonus "password".data ∧ entropy_bonus "password".data ≤ 5 ∧
    -4 ≤ (3 : ℤ) ∧ (3 : ℤ) ≤ 17 :=
  c5_score_decomposition fallback_passwords "password".data
    ⟨"Weak", 3, 1664,
      ["Length is okay but could be longer.",
       "Use a mix of upper, lower, digits, and special chars.",
       "This password is too common!"]⟩ rfl

/-- C6: a fresh evaluation can only fail with `OverflowError` (never with
`IndexError`: the index `min(score // 3, 4)` always lies in `[-2, 4]`,
which is valid for the five-element table under Python indexing), and
whenever it returns a result its rating is one of the five fixed labels.
The score is an integer of the model by construction. -/
theorem c6_rating_in_table (common : List String) (p : List Char) :
    (∀ e : PyExn, evaluate common p initState = Except.error e →
      e = PyExn.overflowError) ∧
    (∀ r : EvalResult, evaluate common p initState = Except.ok r →
      r.rating = "Very Weak" ∨ r.rating = "Weak" ∨ r.rating = "Moderate" ∨
      r.rating = "Strong" ∨ r.rating = "Very Strong") := by
  have hb := score_delta_bounds common p
  have hidx1 : -5 ≤ min (Int.fdiv (initState.score + score_delta common p) 3) 4 := by
    have h0 : initState.score = 0 := rfl
    rw [Int.fdiv_eq_ediv _ (by norm_num)]
    omega
  have hidx2 : min (Int.fdiv (initState.score + score_delta common p) 3) 4 ≤ 4 :=
    min_le_right _ _
  have hsome := pyIndex_rating_isSome hidx1 hidx2
  constructor
  · intro e he
    unfold evaluate at he
    split at he
    next heq => rw [heq] at hsome; exact absurd hsome (by simp)
    next heq =>
      split at he
      next e' heq2 =>
        cases he
        exact estimate_crack_time_error heq2
      · exact absurd he (by simp)
  · intro r hr
    obtain ⟨-, -, -, hidx⟩ := evaluate_ok hr
    exact pyIndex_rating_mem hidx

/-- C6 witness: the password "Abc123!@" evaluates to the rating
"Moderate", one of the five labels. -/
theorem c6_witness :
    ("Moderate" : String) = "Very Weak" ∨ ("Moderate" : String) = "Weak" ∨
    ("Moderate" : String) = "Moderate" ∨ ("Moderate" : String) = "Strong" ∨
    ("Moderate" : String) = "Very Strong" :=
  (c6_rating_in_table fallback_passwords "Abc123!@".data).2
    ⟨"Moderate", 7, 6016,
      ["Length is okay but could be longer.",
       "Avoid common patterns like '123', 'abc', 'qwerty'."]⟩ rfl

/-- C7 counterexample: when the word list exists but is unreadable the
`except FileNotFoundError` clause does not match, so the error reaches the
caller instead of the fallback set being substituted. -/
theorem c7_cex_unreadable_raises :
    load_common_passwords OpenOutcome.permissionDenied =
      Except.error PyExn.permissionError ∧
    (Except.error PyExn.permissionError : Except PyExn (List String)) ≠
      Except.ok fallback_passwords := ⟨rfl, by simp⟩

/-- C7 (amended): only a missing file (`FileNotFoundError`) is recovered
with the fixed fallback set; any other open failure, such as an unreadable
file, propagates to the caller. -/
theorem c7_amended_fallback_only_when_missing :
    load_common_passwords OpenOutcome.fileNotFound =
      Except.ok fallback_passwords ∧
    load_common_passwords OpenOutcome.permissionDenied =
      Except.error PyExn.permissionError := ⟨rfl, rfl⟩

/-- C8 counterexample: resource lines are stripped but NOT lower-cased
(`line.strip()` only), so a word list containing "Password" does not flag
the input "password": the membership test returns sub-score 0, not -2. -/
theorem c8_cex_case_sensitive_store :
    load_common_passwords (OpenOutcome.opened ["Password"]) =
      Except.ok ["Password"] ∧
    (check_common_password ["Password"] "password".data).1 = 0 ∧
    ((0 : ℤ) ≠ -2) := ⟨rfl, rfl, by decide⟩

/-- C8 (amended): every resource line is stripped of leading/trailing
whitespace but stored verbatim (not lower-cased); only the input password
is lower-cased before the exact membership test, so matching is
case-sensitive with respect to the resource contents. -/
theorem c8_amended_strip_no_lowercase (lines : List String) (p : List Char) :
    load_common_passwords (OpenOutcome.opened lines) =
      Except.ok (lines.map pyStrip) ∧
    ((check_common_password (lines.map pyStrip) p).1 = -2 ↔
      (lines.map pyStrip).contains (String.mk (pyLower p)) = true) := by
  refine ⟨rfl, ?_⟩
  unfold check_common_password
  split_ifs with hc
  · exact iff_of_true rfl hc
  · exact iff_of_false (by norm_num) hc

/-- C9: calling `evaluate` twice on the same object does not reset
`self.score` or `self.feedback`: the second call returns twice the first
score and the first feedback list repeated twice. -/
theorem c9_state_accumulates (common : List String) (p : List Char)
    (r1 r2 : EvalResult)
    (h1 : evaluate common p initState = Except.ok r1)
    (h2 : evaluate common p ⟨r1.score, r1.feedback⟩ = Except.ok r2) :
    r2.score = 2 * r1.score ∧ r2.feedback = r1.feedback ++ r1.feedback := by
  obtain ⟨hs1, hf1, -, -⟩ := evaluate_ok h1
  obtain ⟨hs2, hf2, -, -⟩ := evaluate_ok h2
  have e1 : r1.score = 0 + score_delta common p := hs1
  have e2 : r2.score = r1.score + score_delta common p := hs2
  have f1 : r1.feedback = feedback_delta common p := by
    rw [hf1]
    rfl
  have f2 : r2.feedback = r1.feedback ++ feedback_delta common p := hf2
  exact ⟨by omega, by rw [f2, f1]⟩

/-- C9 witness: two successive evaluations of "password" on one object
give scores 3 then 6 and a feedback list of the three advisories repeated
twice. -/
theorem c9_witness :
    (6 : ℤ) = 2 * 3 ∧
    (["Length is okay but could be longer.",
      "Use a mix of upper, lower, digits, and special chars.",
      "This password is too common!",
      "Length is okay but could be longer.",
      "Use a mix of upper, lower, digits, and special chars.",
      "This password is too common!"] : List String) =
      ["Length is okay but could be longer.",
       "Use a mix of upper, lower, digits, and special chars.",
       "This password is too common!"] ++
      ["Length is okay but could be longer.",
       "Use a mix of upper, lower, digits, and special chars.",
       "This password is too common!"] :=
  c9_state_accumulates fallback_passwords "password".data
    ⟨"Weak", 3, 1664,
      ["Length is okay but could be longer.",
       "Use a mix of upper, lower, digits, and special chars.",
       "This password is too common!"]⟩
    ⟨"Moderate", 6, 1664,
      ["Length is okay but could be longer.",
       "Use a mix of upper, lower, digits, and special chars.",
       "This password is too common!",
       "Length is okay but could be longer.",
       "Use a mix of upper, lower, digits, and special chars.",
       "This password is too common!"]⟩ rfl rfl

/-- C10: the quick classifier's special-character class is contained in
`string.punctuation`, the containment is strict (`_`, code 95, is
punctuation but not special), and the 12-character password
"Aaaaaaaaaa1_" — lowercase, uppercase, a digit and `_` as its only symbol
— gets char-class sub-score 4 yet quick rating "Weak". -/
theorem c10_special_subset_and_gap :
    special_codes.all isPunctCode = true ∧
    isPunctCode 95 = true ∧
    special_codes.contains 95 = false ∧
    12 ≤ "Aaaaaaaaaa1_".data.length ∧
    (check_character_types "Aaaaaaaaaa1_".data).1 = 4 ∧
    simple_strength_check "Aaaaaaaaaa1_".data = "Weak" := by decide
